import Mathlib

/-!
# Verification of xmos/lib_rtos_support interrupt and peripheral-hub interfaces

Shallow embedding of the C sources:
* `src/lib_rtos_support/api/rtos_interrupt.h` — interrupt-mask control, written
  as inline assembly over the XS1 status register (SR).
* `src/lib_soc/src/framework/soc_peripheral_hub.h` — peripheral hub interface
  constants and declarations.
* `src/examples/app_freertos_micarray_board/bitstream_src/bitstream_devices.h`
  — board device-count tables.

The per-core status register SR is modelled as a 32-bit machine word, a `Nat`
below `2^32`.  The three SR instructions used by the source are modelled with
their XS1 architecture semantics:
`getsr r11, m` reads `SR AND m` into a register without modifying SR;
`setsr m` performs `SR := SR OR m`; `clrsr m` performs `SR := SR AND NOT m`.
-/

/-- 32-bit all-ones word, used to express bitwise complement on a 32-bit
register. -/
def UINT32_MAX : Nat := 0xFFFFFFFF

/-- From the XS1 architecture header `xs1.h` (external dependency of
`rtos_interrupt.h`): the IEBLE (interrupt-enable) bit of SR, bit 1. -/
def XS1_SR_IEBLE_MASK : Nat := 0x02

/-- From the XS1 architecture header `xs1.h`: the INK (in-kernel-mode) bit of
SR, bit 4. -/
def XS1_SR_INK_MASK : Nat := 0x10

/-- `getsr r11, m`: read of SR masked by the immediate `m`.  Does not write
SR. -/
def getsr (sr m : Nat) : Nat := sr &&& m

/-- `setsr m`: SR := SR OR m. -/
def setsr (sr m : Nat) : Nat := sr ||| m

/-- `clrsr m`: SR := SR AND NOT m (complement taken within the 32-bit
register). -/
def clrsr (sr m : Nat) : Nat := sr &&& (UINT32_MAX ^^^ m)

/-- `rtos_interrupt_mask_get` (rtos_interrupt.h): executes
`getsr r11, XS1_SR_IEBLE_MASK; mov %0, r11`.  Neither instruction writes SR,
so the result is the returned mask value paired with the unchanged SR. -/
def rtos_interrupt_mask_get (sr : Nat) : Nat × Nat :=
  (getsr sr XS1_SR_IEBLE_MASK, sr)

/-- `rtos_interrupt_mask_all` (rtos_interrupt.h): executes
`getsr r11, XS1_SR_IEBLE_MASK; mov %0, r11; clrsr XS1_SR_IEBLE_MASK`.
Returns the previous mask value and the new SR with IEBLE cleared. -/
def rtos_interrupt_mask_all (sr : Nat) : Nat × Nat :=
  (getsr sr XS1_SR_IEBLE_MASK, clrsr sr XS1_SR_IEBLE_MASK)

/-- `rtos_interrupt_unmask_all` (rtos_interrupt.h): executes
`setsr XS1_SR_IEBLE_MASK`; returns the new SR. -/
def rtos_interrupt_unmask_all (sr : Nat) : Nat :=
  setsr sr XS1_SR_IEBLE_MASK

/-- `rtos_interrupt_mask_set` (rtos_interrupt.h):
`if (mask != 0) rtos_interrupt_unmask_all();` — returns the new SR. -/
def rtos_interrupt_mask_set (mask : Nat) (sr : Nat) : Nat :=
  if mask ≠ 0 then rtos_interrupt_unmask_all sr else sr

/-- `rtos_isr_running` (rtos_interrupt.h): executes
`getsr r11, XS1_SR_INK_MASK; mov %0, r11`; SR is not written, the value read
is returned. -/
def rtos_isr_running (sr : Nat) : Nat :=
  getsr sr XS1_SR_INK_MASK

/-- Interrupts are enabled on a context exactly when the IEBLE bit (bit 1) of
its SR is set. -/
def interruptsEnabled (sr : Nat) : Prop := sr.testBit 1

/-- A context is in elevated/kernel execution mode (inside an ISR or kcall)
exactly when the INK bit (bit 4) of its SR is set. -/
def inKernelMode (sr : Nat) : Prop := sr.testBit 4

instance (sr : Nat) : Decidable (interruptsEnabled sr) := by
  unfold interruptsEnabled; infer_instance

instance (sr : Nat) : Decidable (inKernelMode sr) := by
  unfold inKernelMode; infer_instance

/-- One intervening interrupt-mask operation, for reasoning about call
sequences. -/
inductive MaskOp
  | maskAll : MaskOp
  | unmaskAll : MaskOp
  | maskSet : Nat → MaskOp

/-- Run a sequence of interrupt-mask operations on an SR state (the value
returned by an intervening `mask_all` is dropped, i.e. not saved). -/
def run_mask_ops : List MaskOp → Nat → Nat
  | [], sr => sr
  | MaskOp.maskAll :: ops, sr => run_mask_ops ops (rtos_interrupt_mask_all sr).2
  | MaskOp.unmaskAll :: ops, sr => run_mask_ops ops (rtos_interrupt_unmask_all sr)
  | MaskOp.maskSet m :: ops, sr => run_mask_ops ops (rtos_interrupt_mask_set m sr)

/-! ## Helper lemmas on the SR bit operations -/

lemma land_ieble_eq (x : Nat) :
    x &&& XS1_SR_IEBLE_MASK = (x.testBit 1).toNat * 2 := by
  have h : XS1_SR_IEBLE_MASK = 2 ^ 1 := rfl
  rw [h, Nat.and_two_pow]
  norm_num

lemma land_ink_eq (x : Nat) :
    x &&& XS1_SR_INK_MASK = (x.testBit 4).toNat * 16 := by
  have h : XS1_SR_INK_MASK = 2 ^ 4 := rfl
  rw [h, Nat.and_two_pow]
  norm_num

lemma land_ieble_ne_zero_iff (x : Nat) :
    x &&& XS1_SR_IEBLE_MASK ≠ 0 ↔ x.testBit 1 := by
  rw [land_ieble_eq]
  cases h : x.testBit 1 <;> simp

lemma land_ink_ne_zero_iff (x : Nat) :
    x &&& XS1_SR_INK_MASK ≠ 0 ↔ x.testBit 4 := by
  rw [land_ink_eq]
  cases h : x.testBit 4 <;> simp

lemma testBit_setsr_ieble (x : Nat) (i : Nat) (hi : i ≠ 1) :
    (setsr x XS1_SR_IEBLE_MASK).testBit i = x.testBit i := by
  have h2 : XS1_SR_IEBLE_MASK = 2 ^ 1 := rfl
  rw [setsr, h2, Nat.testBit_lor, Nat.testBit_two_pow_of_ne (Ne.symm hi),
    Bool.or_false]

lemma testBit_setsr_ieble_one (x : Nat) :
    (setsr x XS1_SR_IEBLE_MASK).testBit 1 = true := by
  have h2 : XS1_SR_IEBLE_MASK = 2 ^ 1 := rfl
  rw [setsr, h2, Nat.testBit_lor, Nat.testBit_two_pow_self, Bool.or_true]

lemma testBit_uint32max_xor_ieble (i : Nat) :
    (UINT32_MAX ^^^ XS1_SR_IEBLE_MASK).testBit i = (decide (i < 32) && decide (i ≠ 1)) := by
  have h : UINT32_MAX ^^^ XS1_SR_IEBLE_MASK = 0xFFFFFFFD := by decide
  rw [h]
  rcases Nat.lt_or_ge i 32 with h32 | h32
  · interval_cases i <;> decide
  · have : (0xFFFFFFFD : Nat) < 2 ^ i :=
      lt_of_lt_of_le (by norm_num) (Nat.pow_le_pow_right (by norm_num) h32)
    rw [Nat.testBit_lt_two_pow this]
    have : ¬ i < 32 := by omega
    simp [this]

lemma testBit_clrsr_ieble (x : Nat) (hx : x < 2 ^ 32) (i : Nat) (hi : i ≠ 1) :
    (clrsr x XS1_SR_IEBLE_MASK).testBit i = x.testBit i := by
  rw [clrsr, Nat.testBit_land, testBit_uint32max_xor_ieble]
  rcases Nat.lt_or_ge i 32 with h32 | h32
  · simp [h32, hi]
  · have hxi : x.testBit i = false :=
      Nat.testBit_lt_two_pow
        (lt_of_lt_of_le hx (Nat.pow_le_pow_right (by norm_num) h32))
    simp [hxi]

lemma testBit_clrsr_ieble_one (x : Nat) :
    (clrsr x XS1_SR_IEBLE_MASK).testBit 1 = false := by
  rw [clrsr, Nat.testBit_land, testBit_uint32max_xor_ieble]
  simp

lemma clrsr_ieble_land_ieble (x : Nat) :
    clrsr x XS1_SR_IEBLE_MASK &&& XS1_SR_IEBLE_MASK = 0 := by
  rw [land_ieble_eq, testBit_clrsr_ieble_one]
  rfl

lemma isr_running_clrsr_ieble (x : Nat) :
    rtos_isr_running (clrsr x XS1_SR_IEBLE_MASK) = rtos_isr_running x := by
  rw [rtos_isr_running, rtos_isr_running, getsr, getsr, land_ink_eq, land_ink_eq]
  have hlt : x < 2 ^ 32 ∨ ¬ x < 2 ^ 32 := em _
  rcases Nat.lt_or_ge x (2 ^ 32) with hx | hx
  · rw [testBit_clrsr_ieble x hx 4 (by norm_num)]
  · rw [clrsr, Nat.testBit_land, testBit_uint32max_xor_ieble]
    simp

lemma isr_running_setsr_ieble (x : Nat) :
    rtos_isr_running (setsr x XS1_SR_IEBLE_MASK) = rtos_isr_running x := by
  rw [rtos_isr_running, rtos_isr_running, getsr, getsr, land_ink_eq, land_ink_eq,
    testBit_setsr_ieble x 4 (by norm_num)]

lemma mask_get_unmask_all_ne_zero (sr : Nat) :
    (rtos_interrupt_mask_get (rtos_interrupt_unmask_all sr)).1 ≠ 0 := by
  show setsr sr XS1_SR_IEBLE_MASK &&& XS1_SR_IEBLE_MASK ≠ 0
  rw [land_ieble_ne_zero_iff, testBit_setsr_ieble_one]

/-! ## Claims about the interrupt core -/

/-- C3: for every starting SR state, `rtos_interrupt_mask_all` disables all
interrupts on the calling context (a subsequent `rtos_interrupt_mask_get`
returns zero) and returns exactly the value `rtos_interrupt_mask_get` would
have returned immediately before the call. -/
theorem mask_all_disables_and_returns_previous (sr : Nat) :
    (rtos_interrupt_mask_all sr).1 = (rtos_interrupt_mask_get sr).1 ∧
    (rtos_interrupt_mask_get (rtos_interrupt_mask_all sr).2).1 = 0 := by
  refine ⟨rfl, ?_⟩
  show clrsr sr XS1_SR_IEBLE_MASK &&& XS1_SR_IEBLE_MASK = 0
  exact clrsr_ieble_land_ieble sr

/-- C7: for every starting SR state, after `rtos_interrupt_unmask_all` the
value read by `rtos_interrupt_mask_get` is non-zero: interrupts are enabled
unconditionally, whether they were previously enabled or disabled. -/
theorem unmask_all_enables (sr : Nat) :
    (rtos_interrupt_mask_get (rtos_interrupt_unmask_all sr)).1 ≠ 0 :=
  mask_get_unmask_all_ne_zero sr

/-- C2: `rtos_interrupt_mask_set m` with `m` non-zero is exactly
`rtos_interrupt_unmask_all` (full enable, whichever non-zero bits `m` holds)
and leaves interrupts enabled; `rtos_interrupt_mask_set 0` leaves the SR state
exactly as it was (in particular it never disables interrupts). -/
theorem mask_set_nonzero_enables_zero_noop (m sr : Nat) :
    (m ≠ 0 →
      rtos_interrupt_mask_set m sr = rtos_interrupt_unmask_all sr ∧
      (rtos_interrupt_mask_get (rtos_interrupt_mask_set m sr)).1 ≠ 0) ∧
    rtos_interrupt_mask_set 0 sr = sr := by
  constructor
  · intro hm
    rw [rtos_interrupt_mask_set, if_pos hm]
    exact ⟨rfl, mask_get_unmask_all_ne_zero sr⟩
  · rw [rtos_interrupt_mask_set]
    simp

/-- Witness for C2 at `m = 3`, `sr = 0`. -/
theorem mask_set_nonzero_enables_zero_noop_5312 :
    rtos_interrupt_mask_set 3 0 = rtos_interrupt_unmask_all 0 ∧
    (rtos_interrupt_mask_get (rtos_interrupt_mask_set 3 0)).1 ≠ 0 :=
  (mask_set_nonzero_enables_zero_noop 3 0).1 (by decide)

/-- C1 as stated is false on the code: starting with interrupts disabled
(`SR = 0`), the pair `saved = mask_all(); unmask_all(); mask_set(saved)`
leaves interrupts enabled (`mask_get` non-zero) although they were disabled
before the `mask_all` call — `mask_set 0` is a no-op and does not re-disable.
The intervening sequence `[unmaskAll]` contains no unsaved recursive
`mask_all`. -/
theorem mask_save_restore_counterexample :
    ¬ (((rtos_interrupt_mask_get (rtos_interrupt_mask_set (rtos_interrupt_mask_all 0).1
        (run_mask_ops [MaskOp.unmaskAll] (rtos_interrupt_mask_all 0).2))).1 ≠ 0) ↔
      ((rtos_interrupt_mask_get 0).1 ≠ 0)) := by decide

/-- C1 (amended): the save/restore pair `saved = mask_all(); ops; mask_set(saved)`
reproduces the enabled/disabled state in effect before the `mask_all` call —
for arbitrary intervening mask operations when interrupts were enabled at save
time, and, when they were disabled at save time, provided the intervening
operations leave interrupts disabled at the restore point (since `mask_set 0`
is a no-op, an intervening un-restored `unmask_all` or non-zero `mask_set`
defeats the restore). -/
theorem mask_save_restore_reproduces (sr : Nat) (ops : List MaskOp)
    (h : (rtos_interrupt_mask_get sr).1 ≠ 0 ∨
        (rtos_interrupt_mask_get (run_mask_ops ops (rtos_interrupt_mask_all sr).2)).1 = 0) :
    ((rtos_interrupt_mask_get (rtos_interrupt_mask_set (rtos_interrupt_mask_all sr).1
        (run_mask_ops ops (rtos_interrupt_mask_all sr).2))).1 ≠ 0 ↔
      (rtos_interrupt_mask_get sr).1 ≠ 0) := by
  by_cases hs : (rtos_interrupt_mask_get sr).1 = 0
  · have h1 : (rtos_interrupt_mask_all sr).1 = 0 := hs
    have hset : rtos_interrupt_mask_set (rtos_interrupt_mask_all sr).1
        (run_mask_ops ops (rtos_interrupt_mask_all sr).2) =
        run_mask_ops ops (rtos_interrupt_mask_all sr).2 := by
      rw [rtos_interrupt_mask_set, h1]
      simp
    rw [hset]
    rcases h with h | h
    · exact absurd hs h
    · exact iff_of_false (fun hne => hne h) (fun hne => hne hs)
  · have h1 : (rtos_interrupt_mask_all sr).1 ≠ 0 := hs
    have hset : rtos_interrupt_mask_set (rtos_interrupt_mask_all sr).1
        (run_mask_ops ops (rtos_interrupt_mask_all sr).2) =
        rtos_interrupt_unmask_all (run_mask_ops ops (rtos_interrupt_mask_all sr).2) := by
      rw [rtos_interrupt_mask_set, if_pos h1]
    rw [hset]
    exact iff_of_true (mask_get_unmask_all_ne_zero _) hs

/-- Witness for the amended C1 at `sr = 2` with an intervening properly
re-saved-and-restored pair modelled by `ops = [maskAll]` from an
enabled start. -/
theorem mask_save_restore_reproduces_8254 :
    ((rtos_interrupt_mask_get 2).1 ≠ 0 ∨
      (rtos_interrupt_mask_get (run_mask_ops [MaskOp.maskAll] (rtos_interrupt_mask_all 2).2)).1 = 0) ∧
    (((rtos_interrupt_mask_get (rtos_interrupt_mask_set (rtos_interrupt_mask_all 2).1
        (run_mask_ops [MaskOp.maskAll] (rtos_interrupt_mask_all 2).2))).1 ≠ 0) ↔
      ((rtos_interrupt_mask_get 2).1 ≠ 0)) :=
  ⟨Or.inl (by decide), mask_save_restore_reproduces 2 [MaskOp.maskAll] (Or.inl (by decide))⟩

/-- C6: `rtos_isr_running` returns non-zero exactly when the INK
(kernel-mode) bit of SR is set; its truth value agrees on any two states that
agree on kernel mode, whatever their interrupt masks; and it is unchanged by
`rtos_interrupt_mask_all`, `rtos_interrupt_unmask_all` and
`rtos_interrupt_mask_set`. -/
theorem isr_running_kernel_mode_mask_independent (sr sr' m : Nat) :
    (rtos_isr_running sr ≠ 0 ↔ inKernelMode sr) ∧
    ((inKernelMode sr ↔ inKernelMode sr') →
      (rtos_isr_running sr ≠ 0 ↔ rtos_isr_running sr' ≠ 0)) ∧
    rtos_isr_running (rtos_interrupt_mask_all sr).2 = rtos_isr_running sr ∧
    rtos_isr_running (rtos_interrupt_unmask_all sr) = rtos_isr_running sr ∧
    rtos_isr_running (rtos_interrupt_mask_set m sr) = rtos_isr_running sr := by
  have hspec : ∀ x : Nat, rtos_isr_running x ≠ 0 ↔ inKernelMode x := fun x =>
    land_ink_ne_zero_iff x
  refine ⟨hspec sr, ?_, isr_running_clrsr_ieble sr, isr_running_setsr_ieble sr, ?_⟩
  · intro hagree
    rw [hspec sr, hspec sr', hagree]
  · rw [rtos_interrupt_mask_set]
    by_cases hm : m ≠ 0
    · rw [if_pos hm]
      exact isr_running_setsr_ieble sr
    · rw [if_neg hm]

/-- Witness for C6 at two concrete states that are both in kernel mode but
have different interrupt masks (`SR = 16` masked, `SR = 18` unmasked). -/
theorem isr_running_kernel_mode_mask_independent_4418 :
    rtos_isr_running 16 ≠ 0 ↔ rtos_isr_running 18 ≠ 0 :=
  (isr_running_kernel_mode_mask_independent 16 18 0).2.1 (by decide)

/-- C8: `rtos_interrupt_mask_get` has no side effects — it leaves the whole
SR state unchanged — and its value is non-zero exactly when interrupts are
enabled (IEBLE bit set). -/
theorem mask_get_no_side_effects (sr : Nat) :
    (rtos_interrupt_mask_get sr).2 = sr ∧
    ((rtos_interrupt_mask_get sr).1 ≠ 0 ↔ interruptsEnabled sr) :=
  ⟨rfl, land_ieble_ne_zero_iff sr⟩

/-- C10: on a 32-bit SR, every interrupt-mask operation modifies at most the
IEBLE bit (bit 1): `mask_get` leaves SR untouched, and for every other bit
position `i ≠ 1` the bit is identical before and after `mask_all`,
`unmask_all` and `mask_set`; in particular the INK bit observed by
`rtos_isr_running` is unchanged. -/
theorem mask_ops_touch_only_ieble (sr : Nat) (hsr : sr < 2 ^ 32) (i m : Nat)
    (hi : i ≠ 1) :
    (rtos_interrupt_mask_get sr).2 = sr ∧
    ((rtos_interrupt_mask_all sr).2).testBit i = sr.testBit i ∧
    (rtos_interrupt_unmask_all sr).testBit i = sr.testBit i ∧
    (rtos_interrupt_mask_set m sr).testBit i = sr.testBit i ∧
    rtos_isr_running (rtos_interrupt_mask_all sr).2 = rtos_isr_running sr ∧
    rtos_isr_running (rtos_interrupt_unmask_all sr) = rtos_isr_running sr ∧
    rtos_isr_running (rtos_interrupt_mask_set m sr) = rtos_isr_running sr := by
  have hset : (rtos_interrupt_mask_set m sr).testBit i = sr.testBit i := by
    rw [rtos_interrupt_mask_set]
    by_cases hm : m ≠ 0
    · rw [if_pos hm]
      exact testBit_setsr_ieble sr i hi
    · rw [if_neg hm]
  have hisr : rtos_isr_running (rtos_interrupt_mask_set m sr) = rtos_isr_running sr := by
    rw [rtos_interrupt_mask_set]
    by_cases hm : m ≠ 0
    · rw [if_pos hm]
      exact isr_running_setsr_ieble sr
    · rw [if_neg hm]
  exact ⟨rfl, testBit_clrsr_ieble sr hsr i hi, testBit_setsr_ieble sr i hi, hset,
    isr_running_clrsr_ieble sr, isr_running_setsr_ieble sr, hisr⟩

/-- Witness for C10 at `SR = 21` (kernel mode set, interrupts disabled),
bit position 4, `m = 0`. -/
theorem mask_ops_touch_only_ieble_9173 :
    ((rtos_interrupt_mask_all 21).2).testBit 4 = Nat.testBit 21 4 :=
  (mask_ops_touch_only_ieble 21 (by norm_num) 4 0 (by decide)).2.1

/-! ## Peripheral hub interface (soc_peripheral_hub.h, bitstream_devices.h)

The constants below are from `src/`; the function bodies live in
`soc_peripheral_hub.c`, which is not part of the excerpt, so they are
modelled from the spec's description of their behaviour. -/

/-- `SOC_PERIPHERAL_CHANNEL_COUNT` (soc_peripheral_hub.h). -/
def SOC_PERIPHERAL_CHANNEL_COUNT : Nat := 3

/-- `SOC_PERIPHERAL_ISR_DMA_RX_DONE_BM` (soc_peripheral_hub.h): interrupt
status bit for DMA-receive-complete. -/
def SOC_PERIPHERAL_ISR_DMA_RX_DONE_BM : Nat := 0x00000001

/-- `SOC_PERIPHERAL_ISR_DMA_TX_DONE_BM` (soc_peripheral_hub.h): interrupt
status bit for DMA-transmit-complete. -/
def SOC_PERIPHERAL_ISR_DMA_TX_DONE_BM : Nat := 0x00000002

/-- `BITSTREAM_MICARRAY_DEVICE_COUNT` (bitstream_devices.h enum). -/
def BITSTREAM_MICARRAY_DEVICE_COUNT : Nat := 1

/-- `BITSTREAM_ETHERNET_DEVICE_COUNT` (bitstream_devices.h enum). -/
def BITSTREAM_ETHERNET_DEVICE_COUNT : Nat := 1

/-- `BITSTREAM_I2S_DEVICE_COUNT` (bitstream_devices.h enum). -/
def BITSTREAM_I2S_DEVICE_COUNT : Nat := 1

/-- `BITSTREAM_I2C_DEVICE_COUNT` (bitstream_devices.h enum). -/
def BITSTREAM_I2C_DEVICE_COUNT : Nat := 1

/-- `BITSTREAM_GPIO_DEVICE_COUNT` (bitstream_devices.h enum: devices A and
B). -/
def BITSTREAM_GPIO_DEVICE_COUNT : Nat := 2

/-- Overwrite the prefix of the byte buffer `dst` with the bytes of `src`,
keeping `dst`'s length (a memory write into a caller-supplied buffer). -/
def store_bytes : List Nat → List Nat → List Nat
  | _, [] => []
  | [], dst => dst
  | s :: src, _ :: dst => s :: store_bytes src dst

/-- Modelled from the spec: the body of `soc_peripheral_rx_dma_xfer` is in
`soc_peripheral_hub.c`, which is not part of the excerpt (only its
declaration in `soc_peripheral_hub.h` is).  Per the spec it "transfers at
most `max_length` bytes from the DMA engine into the peripheral's receive
ring queue and returns the actual transferred length (0 if no data is
currently available — not an error)", with the untransferred remainder kept
for a later call.  State: `pending` is the data currently available at the
DMA engine, `buf` the caller's buffer; the result is the actual length, the
updated buffer and the remaining pending data. -/
def soc_peripheral_rx_dma_xfer (pending buf : List Nat) (max_length : Nat) :
    Nat × List Nat × List Nat :=
  let n := min max_length pending.length
  (n, store_bytes (pending.take n) buf, pending.drop n)

/-- Opaque channel endpoints are modelled as numbers; a channel triple is the
`FROM_DMA`/`TO_DMA`/`CONTROL` endpoint triple of `SOC_PERIPHERAL_CHANNEL_COUNT`
channels (soc_peripheral_hub.h). -/
def ChannelTriple : Type := Nat × Nat × Nat

/-- The peripheral registration table: a fixed capacity (a boot-time constant
sized from the board's device-count tables) and the records registered so
far. -/
structure RegistrationTable where
  capacity : Nat
  records : List ChannelTriple

/-- Modelled from the spec: the body of `soc_peripheral_register` is in
`soc_peripheral_hub.c`, which is not part of the excerpt (only its
declaration in `soc_peripheral_hub.h` is).  Per the spec it "allocates a new
Registration Record, stores the Channel Triple, returns a fresh opaque
handle.  Fails (returns a null/invalid handle) if the table's fixed capacity
is exhausted."  Handles are arena indices into the table; `none` is the
null/invalid handle. -/
def soc_peripheral_register (t : RegistrationTable) (c : ChannelTriple) :
    Option Nat × RegistrationTable :=
  if t.records.length < t.capacity then
    (some t.records.length, ⟨t.capacity, t.records ++ [c]⟩)
  else
    (none, t)

/-- Modelled from the spec: the Hub's completion path in
`soc_peripheral_hub.c` (not part of the excerpt) "sets the corresponding bit
in the peripheral's Interrupt Status Bitmask (`DMA_RX_DONE` / `DMA_TX_DONE`)"
when a receive transfer completes; this is the receive-completion update of
the status word later read by `soc_peripheral_interrupt_status`. -/
def soc_peripheral_rx_done_update (status : Nat) : Nat :=
  status ||| SOC_PERIPHERAL_ISR_DMA_RX_DONE_BM

/-! ## Helper lemmas on buffers and status bits -/

lemma store_bytes_nil (dst : List Nat) : store_bytes [] dst = dst := by
  cases dst <;> rfl

lemma store_bytes_length (src dst : List Nat) :
    (store_bytes src dst).length = dst.length := by
  induction src generalizing dst with
  | nil => rw [store_bytes_nil]
  | cons s src ih =>
    cases dst with
    | nil => rfl
    | cons d dst => simpa [store_bytes] using ih dst

lemma store_bytes_getElem_ge (src dst : List Nat) (i : Nat)
    (h : src.length ≤ i) : (store_bytes src dst)[i]? = dst[i]? := by
  induction src generalizing dst i with
  | nil => rw [store_bytes_nil]
  | cons s src ih =>
    cases dst with
    | nil => rfl
    | cons d dst =>
      cases i with
      | zero => exact absurd h (by simp)
      | succ i =>
        show (s :: store_bytes src dst)[i + 1]? = (d :: dst)[i + 1]?
        rw [List.getElem?_cons_succ, List.getElem?_cons_succ]
        exact ih dst i (by simpa using h)

lemma lor_rx_land_rx (x : Nat) :
    (x ||| SOC_PERIPHERAL_ISR_DMA_RX_DONE_BM) &&& SOC_PERIPHERAL_ISR_DMA_RX_DONE_BM = 1 := by
  show (x ||| 2 ^ 0) &&& 2 ^ 0 = 2 ^ 0
  rw [Nat.and_two_pow, Nat.testBit_lor, Nat.testBit_two_pow_self, Bool.or_true]
  rfl

lemma lor_rx_land_tx (x : Nat) :
    (x ||| SOC_PERIPHERAL_ISR_DMA_RX_DONE_BM) &&& SOC_PERIPHERAL_ISR_DMA_TX_DONE_BM =
      x &&& SOC_PERIPHERAL_ISR_DMA_TX_DONE_BM := by
  apply Nat.eq_of_testBit_eq
  intro i
  rw [Nat.testBit_land, Nat.testBit_land, Nat.testBit_lor]
  rcases eq_or_ne i 1 with rfl | h
  · have e1 : Nat.testBit SOC_PERIPHERAL_ISR_DMA_RX_DONE_BM 1 = false := by decide
    rw [e1, Bool.or_false]
  · have e2 : Nat.testBit SOC_PERIPHERAL_ISR_DMA_TX_DONE_BM i = false := by
      show Nat.testBit (2 ^ 1) i = false
      rw [Nat.testBit_two_pow_of_ne (Ne.symm h)]
    rw [e2, Bool.and_false, Bool.and_false]

/-! ## Claims about the peripheral hub -/

/-- C4: `soc_peripheral_rx_dma_xfer` returns an actual length at most
`max_length`, keeps the buffer's length, writes nothing at or beyond position
`max_length`, is a no-write returning 0 for `max_length = 0`, and returns 0
(a normal value of the plain result type, not an error) when no data is
pending. -/
theorem rx_dma_xfer_bounded (pending buf : List Nat) (N : Nat) :
    (soc_peripheral_rx_dma_xfer pending buf N).1 ≤ N ∧
    (soc_peripheral_rx_dma_xfer pending buf N).2.1.length = buf.length ∧
    (∀ i, N ≤ i →
      (soc_peripheral_rx_dma_xfer pending buf N).2.1[i]? = buf[i]?) ∧
    (N = 0 → (soc_peripheral_rx_dma_xfer pending buf N).1 = 0 ∧
      (soc_peripheral_rx_dma_xfer pending buf N).2.1 = buf) ∧
    (pending = [] → (soc_peripheral_rx_dma_xfer pending buf N).1 = 0 ∧
      (soc_peripheral_rx_dma_xfer pending buf N).2.1 = buf) := by
  refine ⟨Nat.min_le_left _ _, store_bytes_length _ _, ?_, ?_, ?_⟩
  · intro i hi
    apply store_bytes_getElem_ge
    calc (pending.take (min N pending.length)).length ≤ min N pending.length :=
          by rw [List.length_take]; exact Nat.min_le_left _ _
      _ ≤ N := Nat.min_le_left _ _
      _ ≤ i := hi
  · intro hN
    subst hN
    exact ⟨by simp [soc_peripheral_rx_dma_xfer],
      by simpa [soc_peripheral_rx_dma_xfer] using store_bytes_nil buf⟩
  · intro hp
    subst hp
    exact ⟨by simp [soc_peripheral_rx_dma_xfer],
      by simpa [soc_peripheral_rx_dma_xfer] using store_bytes_nil buf⟩

/-- Witness for C4: three bytes pending, `max_length = 1`, a two-byte buffer;
position 1 (≥ `max_length`) is untouched. -/
theorem rx_dma_xfer_bounded_7081 :
    (soc_peripheral_rx_dma_xfer [7, 8, 9] [0, 0] 1).2.1[1]? = ([0, 0] : List Nat)[1]? :=
  (rx_dma_xfer_bounded [7, 8, 9] [0, 0] 1).2.2.1 1 (by decide)

/-- C5: `soc_peripheral_register` with free capacity returns a fresh non-null
handle (distinct from every previously issued handle) and appends the new
record; with the fixed capacity exhausted it returns the null handle `none`
and leaves the table unchanged. -/
theorem register_fresh_or_full (t : RegistrationTable) (c : ChannelTriple) :
    (t.records.length < t.capacity →
      (soc_peripheral_register t c).1 = some t.records.length ∧
      (soc_peripheral_register t c).1 ≠ none ∧
      (∀ h0, h0 < t.records.length → (soc_peripheral_register t c).1 ≠ some h0) ∧
      (soc_peripheral_register t c).2.records = t.records ++ [c]) ∧
    (t.capacity ≤ t.records.length →
      (soc_peripheral_register t c).1 = none ∧
      (soc_peripheral_register t c).2 = t) := by
  constructor
  · intro hlt
    rw [soc_peripheral_register, if_pos hlt]
    refine ⟨rfl, by simp, ?_, rfl⟩
    intro h0 hh0 hcontra
    rw [Option.some.injEq] at hcontra
    omega
  · intro hge
    rw [soc_peripheral_register, if_neg (by omega)]
    exact ⟨rfl, rfl⟩

/-- Witness for C5: the board's GPIO device table has capacity
`BITSTREAM_GPIO_DEVICE_COUNT = 2`; with two devices registered, a third
registration returns the null handle and the table is unchanged. -/
theorem register_fresh_or_full_2856 :
    (soc_peripheral_register ⟨BITSTREAM_GPIO_DEVICE_COUNT, [(0, 1, 2), (3, 4, 5)]⟩
      (6, 7, 8)).1 = none ∧
    (soc_peripheral_register ⟨BITSTREAM_GPIO_DEVICE_COUNT, [(0, 1, 2), (3, 4, 5)]⟩
      (6, 7, 8)).2 = ⟨BITSTREAM_GPIO_DEVICE_COUNT, [(0, 1, 2), (3, 4, 5)]⟩ :=
  (register_fresh_or_full ⟨BITSTREAM_GPIO_DEVICE_COUNT, [(0, 1, 2), (3, 4, 5)]⟩
    (6, 7, 8)).2 (by decide)

/-- C9: the interrupt-status bit masks are `0x1` (bit 0, DMA receive
complete) and `0x2` (bit 1, DMA transmit complete); they are disjoint, and
after a receive-only completion on a status whose transmit bit is clear, the
receive bit is set and the transmit bit is still clear. -/
theorem isr_status_bits_disjoint (status : Nat)
    (h : status &&& SOC_PERIPHERAL_ISR_DMA_TX_DONE_BM = 0) :
    SOC_PERIPHERAL_ISR_DMA_RX_DONE_BM = 2 ^ 0 ∧
    SOC_PERIPHERAL_ISR_DMA_TX_DONE_BM = 2 ^ 1 ∧
    SOC_PERIPHERAL_ISR_DMA_RX_DONE_BM &&& SOC_PERIPHERAL_ISR_DMA_TX_DONE_BM = 0 ∧
    soc_peripheral_rx_done_update status &&& SOC_PERIPHERAL_ISR_DMA_RX_DONE_BM ≠ 0 ∧
    soc_peripheral_rx_done_update status &&& SOC_PERIPHERAL_ISR_DMA_TX_DONE_BM = 0 := by
  refine ⟨rfl, rfl, by decide, ?_, ?_⟩
  · rw [soc_peripheral_rx_done_update, lor_rx_land_rx]
    norm_num
  · rw [soc_peripheral_rx_done_update, lor_rx_land_tx]
    exact h

/-- Witness for C9 at the all-clear status word `0`. -/
theorem isr_status_bits_disjoint_6604 :
    soc_peripheral_rx_done_update 0 &&& SOC_PERIPHERAL_ISR_DMA_RX_DONE_BM ≠ 0 ∧
    soc_peripheral_rx_done_update 0 &&& SOC_PERIPHERAL_ISR_DMA_TX_DONE_BM = 0 :=
  ⟨(isr_status_bits_disjoint 0 (by decide)).2.2.2.1,
    (isr_status_bits_disjoint 0 (by decide)).2.2.2.2⟩
